import Mathlib

/-!
Verification of the rate-limit route handler (`src/helpers/RateLimitRouteHandler.ts`)
against its specification.

The repository source under `src/` contains only `RateLimitRouteHandler.ts`.
Its collaborators (`RevenueCatHelper.getSubscriptionInfo`, `EntitlementHelper.getRateLimits`,
`RateLimitChecker.checkOnly` / `getHistory`) are not part of the sources; where their
behaviour matters they are modelled from the spec (each such definition is marked
`Modelled from the spec:` in its doc comment) or passed in as the value the awaited
call produced (an `Except` parameter standing for the promise resolving or rejecting).

Machine numbers are modelled as `Int` (JS numbers used as integers), timestamps as
`Int` (epoch milliseconds), and JS `undefined` / `null` as `Option`.
-/

/-- The fallback entitlement tag, `NONE_ENTITLEMENT` from `src/types`. -/
def NONE_ENTITLEMENT : String := "none"

/-- Internal rate limits (`RateLimits` from `src/types`): each period's cap is a
number, with `undefined` (here `none`) meaning unlimited. -/
structure InternalRateLimits where
  hourly : Option Int
  daily : Option Int
  monthly : Option Int
deriving DecidableEq, Repr

/-- API limit value (`number | null` in the API types): `null` means unlimited. -/
inductive ApiLimit where
  | null : ApiLimit
  | num : Int → ApiLimit
deriving DecidableEq, Repr

/-- API rate limits triple (`RateLimits` from the API types). -/
structure ApiRateLimits where
  hourly : ApiLimit
  daily : ApiLimit
  monthly : ApiLimit
deriving DecidableEq, Repr

/-- The configuration mapping entitlement tags to limits (`RateLimitsConfig`).
Modelled as an association list preserving JS object insertion order
(`Object.entries` iterates in that order); keys are unique in a JS object, and
lookup takes the first matching key. -/
def RateLimitsConfig := List (String × InternalRateLimits)

/-- Lookup of `config[entitlement]` on the association list. -/
def lookupTier (config : RateLimitsConfig) (entitlement : String) : Option InternalRateLimits :=
  List.lookup entitlement config

/-- Internal period type enum (`PeriodType` from `src/types`). -/
inductive PeriodType where
  | HOURLY : PeriodType
  | DAILY : PeriodType
  | MONTHLY : PeriodType
deriving DecidableEq, Repr

/-- Usage triple reported by the config endpoint (`RateLimitUsage`). -/
structure RateLimitUsage where
  hourly : Int
  daily : Int
  monthly : Int
deriving DecidableEq, Repr

/-- One tier as listed in the config endpoint response (`RateLimitTier`). -/
structure RateLimitTier where
  entitlement : String
  displayName : String
  limits : ApiRateLimits
deriving DecidableEq, Repr

/-- Response body of the `/ratelimits` endpoint (`RateLimitsConfigData`). -/
structure RateLimitsConfigData where
  tiers : List RateLimitTier
  currentEntitlement : String
  currentLimits : ApiRateLimits
  currentUsage : RateLimitUsage
deriving DecidableEq, Repr

/-- One entry of the history response (`RateLimitHistoryEntry`). -/
structure RateLimitHistoryEntry where
  periodStart : String
  periodEnd : String
  requestCount : Int
  limit : ApiLimit
deriving DecidableEq, Repr

/-- Response body of the `/ratelimits/history` endpoint (`RateLimitHistoryData`). -/
structure RateLimitHistoryData where
  periodType : String
  entries : List RateLimitHistoryEntry
  totalEntries : Nat
deriving DecidableEq, Repr

/-- Result of `RevenueCatHelper.getSubscriptionInfo` when it resolves:
entitlement tags plus the optional subscription start date. -/
structure SubscriptionInfo where
  entitlements : List String
  subscriptionStartedAt : Option Int
deriving DecidableEq, Repr

/-- The per-period remaining counts of a `checkOnly` result; each period's value
may be absent (the handler treats an absent value as 0 via `?? 0`). -/
structure RemainingCounts where
  hourly : Option Int
  daily : Option Int
  monthly : Option Int
deriving DecidableEq, Repr

/-- Result of `RateLimitChecker.checkOnly` when it resolves. -/
structure CheckResult where
  remaining : RemainingCounts
deriving DecidableEq, Repr

/-- Errors the route handler can throw: the invalid-period-type error raised by
`convertPeriodType`, or a storage error propagated from an awaited
`RateLimitChecker` call that rejected. -/
inductive HandlerError where
  | invalidPeriodType : String → HandlerError
  | storage : String → HandlerError
deriving DecidableEq, Repr

/-- A stored counter row (`CounterRecord` of the spec): one row per
(userId, periodType, periodStart). -/
structure CounterRow where
  userId : String
  periodType : PeriodType
  period_start : Int
  period_end : Int
  request_count : Int
deriving DecidableEq, Repr

/-- Modelled from the spec: the per-period merge of the Quota Resolver
(`EntitlementHelper.getRateLimits`, not under `src/`): `unbounded` (`none`)
beats any finite number; among finite numbers the maximum wins. -/
def mergeLimit : Option Int → Option Int → Option Int
  | some a, some b => some (max a b)
  | _, _ => none

/-- Modelled from the spec: merge of two limit triples, per period independently. -/
def mergeTriple (a b : InternalRateLimits) : InternalRateLimits :=
  ⟨mergeLimit a.hourly b.hourly, mergeLimit a.daily b.daily, mergeLimit a.monthly b.monthly⟩

/-- Fold step accumulating the merge of the applicable tiers; `none` is the
initial "no applicable tier seen yet" state. -/
def mergeStep : Option InternalRateLimits → InternalRateLimits → Option InternalRateLimits
  | none, b => some b
  | some a, b => some (mergeTriple a b)

/-- Modelled from the spec: the Quota Resolver `resolve(tags, config)`
(`EntitlementHelper.getRateLimits`, not under `src/`). Tags absent from the
config are ignored; if no supplied tag is present, fall back to `config["none"]`
(the spec's invariant requires that key to be present; if it is violated the
model answers the zero triple). The applicable triples are merged with the
most-permissive-wins rule. -/
def resolve (tags : List String) (config : RateLimitsConfig) : InternalRateLimits :=
  match (tags.filterMap (lookupTier config)).foldl mergeStep none with
  | some merged => merged
  | none => (lookupTier config NONE_ENTITLEMENT).getD ⟨some 0, some 0, some 0⟩

/-- Source `getPrimaryEntitlement`: the first entitlement that is not "none"
and has configured limits, falling back to "none". -/
def getPrimaryEntitlement (config : RateLimitsConfig) (entitlements : List String) : String :=
  match entitlements with
  | [] => NONE_ENTITLEMENT
  | e :: rest =>
    if e ≠ NONE_ENTITLEMENT ∧ (lookupTier config e).isSome then e
    else getPrimaryEntitlement config rest

/-- The `?? null` conversion of one internal limit to the API representation. -/
def toApiLimit : Option Int → ApiLimit
  | none => ApiLimit.null
  | some n => ApiLimit.num n

/-- Source `convertLimits`: internal `undefined`-for-unlimited becomes API
`null`-for-unlimited, per period. -/
def convertLimits (limits : InternalRateLimits) : ApiRateLimits :=
  ⟨toApiLimit limits.hourly, toApiLimit limits.daily, toApiLimit limits.monthly⟩

/-- Source `convertPeriodType`: maps the API period-type string to the internal
enum, throwing the invalid-period-type error on anything else. -/
def convertPeriodType (periodType : String) : Except HandlerError PeriodType :=
  if periodType = "hour" then Except.ok PeriodType.HOURLY
  else if periodType = "day" then Except.ok PeriodType.DAILY
  else if periodType = "month" then Except.ok PeriodType.MONTHLY
  else Except.error (HandlerError.invalidPeriodType periodType)

/-- Source `getLimitForPeriod`: the internal limit for the requested period,
`null` for unlimited and for an unrecognized period type. -/
def getLimitForPeriod (limits : InternalRateLimits) (periodType : String) : ApiLimit :=
  if periodType = "hour" then toApiLimit limits.hourly
  else if periodType = "day" then toApiLimit limits.daily
  else if periodType = "month" then toApiLimit limits.monthly
  else ApiLimit.null

/-- The per-period usage computation of `getRateLimitsConfigData`:
`limit !== undefined ? limit - (remaining ?? 0) : 0`. -/
def periodUsage : Option Int → Option Int → Int
  | some n, r => n - r.getD 0
  | none, _ => 0

/-- The entitlement list actually used after the `try`/`catch` around
`getSubscriptionInfo`: the reported tags on success, `[NONE_ENTITLEMENT]` when
the call rejected. -/
def effectiveEntitlements : Except String SubscriptionInfo → List String
  | Except.ok info => info.entitlements
  | Except.error _ => [NONE_ENTITLEMENT]

/-- The subscription anchor actually used after the `try`/`catch`:
the reported date on success, absent when the call rejected. -/
def effectiveAnchor : Except String SubscriptionInfo → Option Int
  | Except.ok info => info.subscriptionStartedAt
  | Except.error _ => none

/-- Default display names for common entitlements (`DEFAULT_DISPLAY_NAMES`). -/
def DEFAULT_DISPLAY_NAMES : List (String × String) :=
  [("none", "Free"), ("starter", "Starter"), ("pro", "Pro"), ("enterprise", "Enterprise")]

/-- The state of a constructed `RateLimitRouteHandler`: its configuration and
its merged display-name map. -/
structure RateLimitRouteHandler where
  rateLimitsConfig : RateLimitsConfig
  displayNames : List (String × String)

/-- The constructor's display-name merge `{...DEFAULT_DISPLAY_NAMES, ...config.entitlementDisplayNames}`:
caller-supplied names override the defaults (lookup takes the first match, so
the caller's list comes first). -/
def mkRateLimitRouteHandler (config : RateLimitsConfig)
    (entitlementDisplayNames : List (String × String)) : RateLimitRouteHandler :=
  ⟨config, entitlementDisplayNames ++ DEFAULT_DISPLAY_NAMES⟩

/-- Source fallback capitalization `charAt(0).toUpperCase() + slice(1)`. -/
def capitalizeFirst (s : String) : String :=
  (s.take 1).toUpper ++ s.drop 1

/-- Source `getDisplayName`: the configured display name when present and truthy
(the empty string is falsy in JS), otherwise the capitalized tag. -/
def getDisplayName (h : RateLimitRouteHandler) (entitlement : String) : String :=
  match List.lookup entitlement h.displayNames with
  | some d => if d = "" then capitalizeFirst entitlement else d
  | none => capitalizeFirst entitlement

/-- Modelled from the spec: serialization of a stored timestamp by JS
`Date.toISOString` (a builtin external to the repository); modelled as an
injective rendering of the epoch-millisecond integer. -/
def isoString (t : Int) : String := toString t

/-- Ordering of counter rows by `period_start` descending (`rowGE a b` holds when
`a` comes no later than `b` in the history listing). -/
def rowGE (a b : CounterRow) : Prop := b.period_start ≤ a.period_start

instance : DecidableRel rowGE := fun a b =>
  inferInstanceAs (Decidable (b.period_start ≤ a.period_start))

instance : IsTotal CounterRow rowGE := ⟨fun a b => le_total b.period_start a.period_start⟩

instance : IsTrans CounterRow rowGE := ⟨fun _ _ _ hab hbc => le_trans hbc hab⟩

/-- Modelled from the spec: `RateLimitChecker.getHistory` (not under `src/`):
the stored counter rows for `(userId, periodType)`, ordered by `periodStart`
descending (most recent first), capped at `limit`. The `anchor` argument of the
source signature does not affect which existing rows are listed. -/
def getHistory (userId : String) (periodType : PeriodType) (_anchor : Option Int)
    (rows : List CounterRow) (limit : Nat) : List CounterRow :=
  (List.insertionSort rowGE
    (rows.filter (fun r => decide (r.userId = userId ∧ r.periodType = periodType)))).take limit

/-- The per-entry conversion of `getRateLimitHistoryData`: serialize the window
boundaries, keep the stored count, attach the user's period limit. -/
def toHistoryEntry (periodLimit : ApiLimit) (r : CounterRow) : RateLimitHistoryEntry :=
  ⟨isoString r.period_start, isoString r.period_end, r.request_count, periodLimit⟩

/-- Source `getRateLimitsConfigData`. The awaited collaborator calls appear as
`Except` parameters: `rcResult` is what `getSubscriptionInfo(userId)` produced
(caught entirely by the handler's `try`/`catch`), `checkOnlyResult` is what
`RateLimitChecker.checkOnly` produced (not caught: a rejection propagates). -/
def getRateLimitsConfigData (h : RateLimitRouteHandler) (_userId : String)
    (rcResult : Except String SubscriptionInfo)
    (checkOnlyResult : Except String CheckResult) :
    Except HandlerError RateLimitsConfigData :=
  let tiers : List RateLimitTier :=
    h.rateLimitsConfig.map (fun p => ⟨p.1, getDisplayName h p.1, convertLimits p.2⟩)
  let entitlements := effectiveEntitlements rcResult
  let currentEntitlement := getPrimaryEntitlement h.rateLimitsConfig entitlements
  let internalLimits := resolve entitlements h.rateLimitsConfig
  let currentLimits := convertLimits internalLimits
  match checkOnlyResult with
  | Except.error e => Except.error (HandlerError.storage e)
  | Except.ok checkResult =>
    Except.ok ⟨tiers, currentEntitlement, currentLimits,
      ⟨periodUsage internalLimits.hourly checkResult.remaining.hourly,
       periodUsage internalLimits.daily checkResult.remaining.daily,
       periodUsage internalLimits.monthly checkResult.remaining.monthly⟩⟩

/-- Source `getRateLimitHistoryData`. `convertPeriodType` runs first and its
error short-circuits everything after it. `rcResult` is what
`getSubscriptionInfo(userId)` produced (caught entirely); `storage` is the
stored row set, or the rejection of the awaited `getHistory` database call
(not caught: it propagates). -/
def getRateLimitHistoryData (h : RateLimitRouteHandler) (userId : String)
    (periodType : String) (rcResult : Except String SubscriptionInfo)
    (storage : Except String (List CounterRow)) (limit : Nat) :
    Except HandlerError RateLimitHistoryData :=
  match convertPeriodType periodType with
  | Except.error e => Except.error e
  | Except.ok internalPeriodType =>
    let subscriptionStartedAt := effectiveAnchor rcResult
    let entitlements := effectiveEntitlements rcResult
    let internalLimits := resolve entitlements h.rateLimitsConfig
    let periodLimit := getLimitForPeriod internalLimits periodType
    match storage with
    | Except.error e => Except.error (HandlerError.storage e)
    | Except.ok rows =>
      let entries := (getHistory userId internalPeriodType subscriptionStartedAt rows
        limit).map (toHistoryEntry periodLimit)
      Except.ok ⟨periodType, entries, entries.length⟩

/-- The `limit` default value of `getRateLimitHistoryData` (`limit: number = 100`). -/
def HISTORY_DEFAULT_LIMIT : Nat := 100

/-- Source `getRateLimitHistoryData` as called with the `limit` parameter omitted. -/
def getRateLimitHistoryDataDefault (h : RateLimitRouteHandler) (userId : String)
    (periodType : String) (rcResult : Except String SubscriptionInfo)
    (storage : Except String (List CounterRow)) :
    Except HandlerError RateLimitHistoryData :=
  getRateLimitHistoryData h userId periodType rcResult storage HISTORY_DEFAULT_LIMIT

/-- Claim C5: the API conversion (`convertLimits`, and `getLimitForPeriod` for
the history endpoint) maps an unbounded period limit to `null` and a finite
limit `n` to `n` itself; an unbounded limit is never reported as `0` nor as any
finite number. -/
theorem convertLimits_keeps_unbounded_distinct (limits : InternalRateLimits) :
    (convertLimits limits).hourly = toApiLimit limits.hourly ∧
    (convertLimits limits).daily = toApiLimit limits.daily ∧
    (convertLimits limits).monthly = toApiLimit limits.monthly ∧
    getLimitForPeriod limits "hour" = toApiLimit limits.hourly ∧
    getLimitForPeriod limits "day" = toApiLimit limits.daily ∧
    getLimitForPeriod limits "month" = toApiLimit limits.monthly ∧
    toApiLimit none = ApiLimit.null ∧
    (∀ n : Int, toApiLimit (some n) = ApiLimit.num n) ∧
    (∀ n : Int, ApiLimit.null ≠ ApiLimit.num n) := by
  refine ⟨rfl, rfl, rfl, ?_, ?_, ?_, rfl, fun n => rfl, fun n hne => ApiLimit.noConfusion hne⟩
  · rfl
  · rfl
  · rfl

/-- Claim C9: in `getRateLimitsConfigData` the reported `currentUsage` for a
period equals the effective limit minus the remaining count from `checkOnly`
when that period's limit is finite (an absent remaining value counts as 0, so
the usage then equals the full limit), and equals 0 whenever that period's
limit is unbounded, regardless of the remaining counts. -/
theorem getRateLimitsConfigData_currentUsage (h : RateLimitRouteHandler)
    (userId : String) (rcResult : Except String SubscriptionInfo) (c : CheckResult) :
    (getRateLimitsConfigData h userId rcResult (Except.ok c)).map
        RateLimitsConfigData.currentUsage =
      Except.ok
        ⟨periodUsage (resolve (effectiveEntitlements rcResult) h.rateLimitsConfig).hourly
            c.remaining.hourly,
         periodUsage (resolve (effectiveEntitlements rcResult) h.rateLimitsConfig).daily
            c.remaining.daily,
         periodUsage (resolve (effectiveEntitlements rcResult) h.rateLimitsConfig).monthly
            c.remaining.monthly⟩ ∧
    (∀ n r : Int, periodUsage (some n) (some r) = n - r) ∧
    (∀ n : Int, periodUsage (some n) none = n) ∧
    (∀ r : Option Int, periodUsage none r = 0) := by
  refine ⟨rfl, fun n r => rfl, fun n => ?_, fun r => rfl⟩
  show n - (0 : Int) = n
  exact sub_zero n

/-- Claim C1 as stated fails on the code: with an Entitlement Source call that
fails (modelling any non-not-found error, here a connection failure), both
`getRateLimitsConfigData` and `getRateLimitHistoryData` succeed — the failure
is caught and silently mapped to the "none" tier instead of being propagated
as a fatal error. -/
theorem revenueCatFailure_not_propagated :
    (getRateLimitsConfigData
        (mkRateLimitRouteHandler [("none", ⟨some 5, some 20, some 100⟩)] [])
        "user-1" (Except.error "connection refused")
        (Except.ok ⟨⟨some 5, some 20, some 100⟩⟩)).map
      RateLimitsConfigData.currentEntitlement = Except.ok "none" ∧
    (getRateLimitHistoryData
        (mkRateLimitRouteHandler [("none", ⟨some 5, some 20, some 100⟩)] [])
        "user-1" "hour" (Except.error "connection refused")
        (Except.ok []) 100).map RateLimitHistoryData.totalEntries = Except.ok 0 := by
  exact ⟨rfl, rfl⟩

/-- Claim C1 amended: when `getSubscriptionInfo` fails with ANY error, both
`getRateLimitsConfigData` and `getRateLimitHistoryData` catch the failure and
proceed exactly as if the Entitlement Source had reported the "none" tier with
no subscription anchor; the failure is silently mapped to the "none" tier and
never propagated to the caller. -/
theorem revenueCatFailure_mapped_to_none (h : RateLimitRouteHandler)
    (userId : String) (e : String) (checkOnlyResult : Except String CheckResult)
    (periodType : String) (storage : Except String (List CounterRow)) (limit : Nat) :
    getRateLimitsConfigData h userId (Except.error e) checkOnlyResult =
      getRateLimitsConfigData h userId (Except.ok ⟨[NONE_ENTITLEMENT], none⟩)
        checkOnlyResult ∧
    getRateLimitHistoryData h userId periodType (Except.error e) storage limit =
      getRateLimitHistoryData h userId periodType (Except.ok ⟨[NONE_ENTITLEMENT], none⟩)
        storage limit := by
  exact ⟨rfl, rfl⟩

/-- Claim C3: for any period type outside hour/day/month,
`getRateLimitHistoryData` fails with the invalid-period-type error raised by
`convertPeriodType`, whatever the Entitlement Source or the storage would
return (so neither is consulted), and that error is distinct from every
storage failure. -/
theorem invalidPeriodType_reported_first (h : RateLimitRouteHandler)
    (userId periodType : String)
    (h1 : periodType ≠ "hour") (h2 : periodType ≠ "day") (h3 : periodType ≠ "month")
    (rcResult : Except String SubscriptionInfo)
    (storage : Except String (List CounterRow)) (limit : Nat) :
    getRateLimitHistoryData h userId periodType rcResult storage limit =
      Except.error (HandlerError.invalidPeriodType periodType) ∧
    ∀ msg : String,
      HandlerError.invalidPeriodType periodType ≠ HandlerError.storage msg := by
  refine ⟨?_, fun msg hne => HandlerError.noConfusion hne⟩
  unfold getRateLimitHistoryData convertPeriodType
  rw [if_neg h1, if_neg h2, if_neg h3]

/-- Witness for C3 at the concrete period type "week". -/
theorem invalidPeriodType_reported_first_witness :
    getRateLimitHistoryData (mkRateLimitRouteHandler [("none", ⟨some 1, some 1, some 1⟩)] [])
        "u" "week" (Except.ok ⟨["pro"], some 0⟩) (Except.error "db down") 100 =
      Except.error (HandlerError.invalidPeriodType "week") ∧
    HandlerError.invalidPeriodType "week" ≠ HandlerError.storage "db down" := by
  have h := invalidPeriodType_reported_first
    (mkRateLimitRouteHandler [("none", ⟨some 1, some 1, some 1⟩)] []) "u" "week"
    (by decide) (by decide) (by decide)
    (Except.ok ⟨["pro"], some 0⟩) (Except.error "db down") 100
  exact ⟨h.1, h.2 "db down"⟩

/-- Claim C4: a failing durable-storage operation (`checkOnly` in
`getRateLimitsConfigData`, `getHistory` in `getRateLimitHistoryData`)
propagates to the caller as a storage error carrying the original message
unchanged; the handler performs no retry and substitutes no default
allow/deny result. -/
theorem storageFailure_propagates (h : RateLimitRouteHandler) (userId : String)
    (rcResult : Except String SubscriptionInfo) (e : String)
    (periodType : String) (ipt : PeriodType)
    (hpt : convertPeriodType periodType = Except.ok ipt) (limit : Nat) :
    getRateLimitsConfigData h userId rcResult (Except.error e) =
      Except.error (HandlerError.storage e) ∧
    getRateLimitHistoryData h userId periodType rcResult (Except.error e) limit =
      Except.error (HandlerError.storage e) := by
  constructor
  · rfl
  · unfold getRateLimitHistoryData
    rw [hpt]

/-- Witness for C4 at the concrete period type "hour" and error "db down". -/
theorem storageFailure_propagates_witness :
    getRateLimitsConfigData (mkRateLimitRouteHandler [("none", ⟨some 1, some 1, some 1⟩)] [])
        "u" (Except.ok ⟨["pro"], some 0⟩) (Except.error "db down") =
      Except.error (HandlerError.storage "db down") ∧
    getRateLimitHistoryData (mkRateLimitRouteHandler [("none", ⟨some 1, some 1, some 1⟩)] [])
        "u" "hour" (Except.ok ⟨["pro"], some 0⟩) (Except.error "db down") 100 =
      Except.error (HandlerError.storage "db down") :=
  storageFailure_propagates
    (mkRateLimitRouteHandler [("none", ⟨some 1, some 1, some 1⟩)] []) "u"
    (Except.ok ⟨["pro"], some 0⟩) "db down" "hour" PeriodType.HOURLY rfl 100

/-- Claim C6: when no supplied tag other than "none" has an entry in the
configuration, `getPrimaryEntitlement` (and hence the `currentEntitlement`
reported by `getRateLimitsConfigData`) is "none", the mandatory fallback tier;
given the configured "none" invariant, the returned tag is never absent from
the configuration. -/
theorem getPrimaryEntitlement_none_fallback (config : RateLimitsConfig)
    (hnone : (lookupTier config NONE_ENTITLEMENT).isSome = true) (tags : List String)
    (hall : ∀ t ∈ tags, t ≠ NONE_ENTITLEMENT → lookupTier config t = none) :
    getPrimaryEntitlement config tags = NONE_ENTITLEMENT ∧
    (lookupTier config (getPrimaryEntitlement config tags)).isSome = true ∧
    ∀ (names : List (String × String)) (userId : String) (info : SubscriptionInfo)
      (c : CheckResult), info.entitlements = tags →
      (getRateLimitsConfigData ⟨config, names⟩ userId (Except.ok info) (Except.ok c)).map
          RateLimitsConfigData.currentEntitlement = Except.ok NONE_ENTITLEMENT := by
  have hmain : getPrimaryEntitlement config tags = NONE_ENTITLEMENT := by
    induction tags with
    | nil => rfl
    | cons e rest ih =>
      unfold getPrimaryEntitlement
      rw [if_neg ?_]
      · exact ih (fun t ht => hall t (List.mem_cons_of_mem _ ht))
      · rintro ⟨hne, hsome⟩
        rw [hall e (List.mem_cons_self _ _) hne] at hsome
        simp at hsome
  refine ⟨hmain, by rw [hmain]; exact hnone, ?_⟩
  intro names userId info c hinfo
  show Except.ok (getPrimaryEntitlement config info.entitlements) =
    Except.ok NONE_ENTITLEMENT
  rw [hinfo, hmain]

/-- Witness for C6: the tags ["missing", "none"] against a configuration that
only defines the "none" tier. -/
theorem getPrimaryEntitlement_none_fallback_witness :
    getPrimaryEntitlement [("none", ⟨some 5, some 20, some 100⟩)] ["missing", "none"] =
      NONE_ENTITLEMENT ∧
    (lookupTier [("none", ⟨some 5, some 20, some 100⟩)]
      (getPrimaryEntitlement [("none", ⟨some 5, some 20, some 100⟩)]
        ["missing", "none"])).isSome = true ∧
    (getRateLimitsConfigData ⟨[("none", ⟨some 5, some 20, some 100⟩)], []⟩ "u"
        (Except.ok ⟨["missing", "none"], none⟩)
        (Except.ok ⟨⟨some 3, some 3, some 3⟩⟩)).map
      RateLimitsConfigData.currentEntitlement = Except.ok NONE_ENTITLEMENT := by
  have h := getPrimaryEntitlement_none_fallback [("none", ⟨some 5, some 20, some 100⟩)]
    (by decide) ["missing", "none"] (by decide)
  exact ⟨h.1, h.2.1, h.2.2 [] "u" ⟨["missing", "none"], none⟩ ⟨⟨some 3, some 3, some 3⟩⟩ rfl⟩

/-- Claim C10: `getPrimaryEntitlement` returns the first tag in iteration order
that is not "none" and has a configuration entry, falling back to "none"; the
handler's `currentEntitlement` is exactly that selection, and — unlike the
limits merge — the selection depends on the order of the supplied tags, as two
permuted tag lists with different results show. -/
theorem getPrimaryEntitlement_first_match (config : RateLimitsConfig)
    (tags : List String) :
    getPrimaryEntitlement config tags =
      (tags.find? (fun t =>
        decide (t ≠ NONE_ENTITLEMENT) && (lookupTier config t).isSome)).getD
        NONE_ENTITLEMENT ∧
    (∀ (h : RateLimitRouteHandler) (userId : String)
      (rcResult : Except String SubscriptionInfo) (c : CheckResult),
      (getRateLimitsConfigData h userId rcResult (Except.ok c)).map
          RateLimitsConfigData.currentEntitlement =
        Except.ok (getPrimaryEntitlement h.rateLimitsConfig
          (effectiveEntitlements rcResult))) ∧
    List.Perm ["starter", "pro"] ["pro", "starter"] ∧
    getPrimaryEntitlement
      [("starter", ⟨some 10, some 50, some 500⟩), ("pro", ⟨none, none, none⟩)]
      ["starter", "pro"] = "starter" ∧
    getPrimaryEntitlement
      [("starter", ⟨some 10, some 50, some 500⟩), ("pro", ⟨none, none, none⟩)]
      ["pro", "starter"] = "pro" := by
  refine ⟨?_, fun h userId rcResult c => rfl, by decide, by decide, by decide⟩
  induction tags with
  | nil => rfl
  | cons e rest ih =>
    unfold getPrimaryEntitlement
    by_cases hc : e ≠ NONE_ENTITLEMENT ∧ (lookupTier config e).isSome
    · rw [if_pos hc, List.find?_cons_of_pos]
      · rfl
      · simp only [Bool.and_eq_true, decide_eq_true_eq]
        exact hc
    · rw [if_neg hc, List.find?_cons_of_neg, ih]
      simp only [Bool.and_eq_true, decide_eq_true_eq]
      exact hc

theorem mergeLimit_comm (a b : Option Int) : mergeLimit a b = mergeLimit b a := by
  cases a <;> cases b <;> simp [mergeLimit, max_comm]

theorem mergeLimit_assoc (a b c : Option Int) :
    mergeLimit (mergeLimit a b) c = mergeLimit a (mergeLimit b c) := by
  cases a <;> cases b <;> cases c <;> simp [mergeLimit, max_assoc]

theorem mergeTriple_comm (a b : InternalRateLimits) : mergeTriple a b = mergeTriple b a := by
  simp [mergeTriple, mergeLimit_comm]

theorem mergeTriple_assoc (a b c : InternalRateLimits) :
    mergeTriple (mergeTriple a b) c = mergeTriple a (mergeTriple b c) := by
  simp [mergeTriple, mergeLimit_assoc]

instance : RightCommutative mergeStep := by
  constructor
  intro b a₁ a₂
  cases b with
  | none =>
    show some (mergeTriple a₁ a₂) = some (mergeTriple a₂ a₁)
    rw [mergeTriple_comm]
  | some c =>
    show some (mergeTriple (mergeTriple c a₁) a₂) = some (mergeTriple (mergeTriple c a₂) a₁)
    rw [mergeTriple_assoc, mergeTriple_assoc, mergeTriple_comm a₁ a₂]

theorem resolve_perm_invariant (tags tags' : List String) (config : RateLimitsConfig)
    (hperm : tags.Perm tags') : resolve tags config = resolve tags' config := by
  unfold resolve
  rw [List.Perm.foldl_eq (List.Perm.filterMap (lookupTier config) hperm) none]

/-- Claim C2: `resolve` merges the applicable tiers' limits per period
independently — `unbounded` (`none`) beats any finite number, among finite
numbers the maximum wins — and the result is identical under any permutation
of the supplied tags. -/
theorem resolve_merge_most_permissive_order_independent (config : RateLimitsConfig)
    (tags tags' : List String) (hperm : tags.Perm tags') :
    resolve tags config = resolve tags' config ∧
    (∀ a b : InternalRateLimits, mergeTriple a b =
      ⟨mergeLimit a.hourly b.hourly, mergeLimit a.daily b.daily,
       mergeLimit a.monthly b.monthly⟩) ∧
    (∀ x : Option Int, mergeLimit none x = none ∧ mergeLimit x none = none) ∧
    (∀ a b : Int, mergeLimit (some a) (some b) = some (max a b)) := by
  refine ⟨resolve_perm_invariant tags tags' config hperm, fun a b => rfl, ?_, fun a b => rfl⟩
  intro x
  cases x <;> exact ⟨rfl, rfl⟩

/-- Witness for C2: the spec's scenario configuration; permuting
["starter", "pro"] leaves the resolved triple unchanged, and the merge of the
finite starter limits with the unbounded pro limits is unbounded everywhere. -/
theorem resolve_merge_most_permissive_order_independent_witness :
    resolve ["starter", "pro"]
      [("none", ⟨some 5, some 20, some 100⟩),
       ("starter", ⟨some 10, some 50, some 500⟩),
       ("pro", ⟨none, none, none⟩)] =
    resolve ["pro", "starter"]
      [("none", ⟨some 5, some 20, some 100⟩),
       ("starter", ⟨some 10, some 50, some 500⟩),
       ("pro", ⟨none, none, none⟩)] ∧
    resolve ["starter", "pro"]
      [("none", ⟨some 5, some 20, some 100⟩),
       ("starter", ⟨some 10, some 50, some 500⟩),
       ("pro", ⟨none, none, none⟩)] = ⟨none, none, none⟩ := by
  have h := resolve_merge_most_permissive_order_independent
    [("none", ⟨some 5, some 20, some 100⟩),
     ("starter", ⟨some 10, some 50, some 500⟩),
     ("pro", ⟨none, none, none⟩)]
    ["starter", "pro"] ["pro", "starter"] (by decide)
  exact ⟨h.1, by decide⟩

theorem getHistory_subset (userId : String) (pt : PeriodType) (anchor : Option Int)
    (rows : List CounterRow) (limit : Nat) (r : CounterRow)
    (hr : r ∈ getHistory userId pt anchor rows limit) : r ∈ rows := by
  unfold getHistory at hr
  have h1 := (List.take_sublist _ _).subset hr
  exact List.mem_of_mem_filter ((List.mem_insertionSort rowGE).mp h1)

theorem getHistory_length_le (userId : String) (pt : PeriodType) (anchor : Option Int)
    (rows : List CounterRow) (limit : Nat) :
    (getHistory userId pt anchor rows limit).length ≤ limit := by
  unfold getHistory
  exact List.length_take_le _ _

theorem getHistory_strictly_decreasing (userId : String) (pt : PeriodType)
    (anchor : Option Int) (rows : List CounterRow) (limit : Nat)
    (huniq : rows.Pairwise (fun a b =>
      a.userId = b.userId → a.periodType = b.periodType →
      a.period_start ≠ b.period_start)) :
    (getHistory userId pt anchor rows limit).Pairwise
      (fun a b => b.period_start < a.period_start) := by
  unfold getHistory
  have hfilter : (rows.filter
      (fun r => decide (r.userId = userId ∧ r.periodType = pt))).Pairwise
      (fun a b => a.period_start ≠ b.period_start) := by
    have hsub := List.Pairwise.sublist
      (List.filter_sublist (p := fun r => decide (r.userId = userId ∧ r.periodType = pt)) rows)
      huniq
    refine List.Pairwise.imp_of_mem ?_ hsub
    intro a b ha hb hr
    have hpa := of_decide_eq_true (List.mem_filter.mp ha).2
    have hpb := of_decide_eq_true (List.mem_filter.mp hb).2
    exact hr (hpa.1.trans hpb.1.symm) (hpa.2.trans hpb.2.symm)
  have hsorted := List.sorted_insertionSort rowGE
    (rows.filter (fun r => decide (r.userId = userId ∧ r.periodType = pt)))
  have hne : (List.insertionSort rowGE
      (rows.filter (fun r => decide (r.userId = userId ∧ r.periodType = pt)))).Pairwise
      (fun a b => a.period_start ≠ b.period_start) :=
    ((List.perm_insertionSort rowGE _).pairwise_iff (fun h => Ne.symm h)).mpr hfilter
  have hcomb := List.pairwise_and_iff.mpr ⟨hsorted, hne⟩
  have hstrict := hcomb.imp
    (fun hab => lt_of_le_of_ne hab.1 (Ne.symm hab.2))
  exact List.Pairwise.sublist (List.take_sublist _ _) hstrict

/-- Claim C7: under the spec's row-uniqueness invariant, the history used by
`getRateLimitHistoryData` is strictly decreasing by period start (most recent
first), holds at most `limit` entries (at most 100 when the caller omits
`limit`), and lists only windows for which a counter row actually exists (no
synthetic back-fill); the returned entries are exactly the conversion of that
history. -/
theorem getRateLimitHistoryData_history_shape (h : RateLimitRouteHandler)
    (userId periodType : String) (ipt : PeriodType)
    (hpt : convertPeriodType periodType = Except.ok ipt)
    (rcResult : Except String SubscriptionInfo) (rows : List CounterRow) (limit : Nat)
    (huniq : rows.Pairwise (fun a b =>
      a.userId = b.userId → a.periodType = b.periodType →
      a.period_start ≠ b.period_start)) :
    (getHistory userId ipt (effectiveAnchor rcResult) rows limit).Pairwise
      (fun a b => b.period_start < a.period_start) ∧
    (getHistory userId ipt (effectiveAnchor rcResult) rows limit).length ≤ limit ∧
    (∀ r ∈ getHistory userId ipt (effectiveAnchor rcResult) rows limit, r ∈ rows) ∧
    (getRateLimitHistoryData h userId periodType rcResult (Except.ok rows) limit).map
        RateLimitHistoryData.entries =
      Except.ok ((getHistory userId ipt (effectiveAnchor rcResult) rows limit).map
        (toHistoryEntry (getLimitForPeriod
          (resolve (effectiveEntitlements rcResult) h.rateLimitsConfig) periodType))) ∧
    (getRateLimitHistoryDataDefault h userId periodType rcResult (Except.ok rows)).map
        (fun d => d.entries.length) =
      Except.ok (getHistory userId ipt (effectiveAnchor rcResult) rows
        HISTORY_DEFAULT_LIMIT).length ∧
    (getHistory userId ipt (effectiveAnchor rcResult) rows
      HISTORY_DEFAULT_LIMIT).length ≤ 100 := by
  refine ⟨getHistory_strictly_decreasing userId ipt _ rows limit huniq,
    getHistory_length_le userId ipt _ rows limit,
    fun r hr => getHistory_subset userId ipt _ rows limit r hr, ?_, ?_,
    getHistory_length_le userId ipt _ rows HISTORY_DEFAULT_LIMIT⟩
  · unfold getRateLimitHistoryData
    rw [hpt]
    rfl
  · unfold getRateLimitHistoryDataDefault getRateLimitHistoryData
    rw [hpt]
    show Except.ok (List.length (List.map _ _)) = _
    rw [List.length_map]

/-- Witness for C7: three stored rows for the user (hour windows starting at
1000, 3000 and 2000 epoch-ms) plus one row of another user; with limit 2 the
history lists the two most recent rows in decreasing order. -/
theorem getRateLimitHistoryData_history_shape_witness :
    (getHistory "u" PeriodType.HOURLY none
      [⟨"u", PeriodType.HOURLY, 1000, 2000, 3⟩,
       ⟨"v", PeriodType.HOURLY, 5000, 6000, 9⟩,
       ⟨"u", PeriodType.HOURLY, 3000, 4000, 1⟩,
       ⟨"u", PeriodType.HOURLY, 2000, 3000, 4⟩] 2).Pairwise
      (fun a b => b.period_start < a.period_start) ∧
    (getHistory "u" PeriodType.HOURLY none
      [⟨"u", PeriodType.HOURLY, 1000, 2000, 3⟩,
       ⟨"v", PeriodType.HOURLY, 5000, 6000, 9⟩,
       ⟨"u", PeriodType.HOURLY, 3000, 4000, 1⟩,
       ⟨"u", PeriodType.HOURLY, 2000, 3000, 4⟩] 2).length ≤ 2 ∧
    getHistory "u" PeriodType.HOURLY none
      [⟨"u", PeriodType.HOURLY, 1000, 2000, 3⟩,
       ⟨"v", PeriodType.HOURLY, 5000, 6000, 9⟩,
       ⟨"u", PeriodType.HOURLY, 3000, 4000, 1⟩,
       ⟨"u", PeriodType.HOURLY, 2000, 3000, 4⟩] 2 =
      [⟨"u", PeriodType.HOURLY, 3000, 4000, 1⟩, ⟨"u", PeriodType.HOURLY, 2000, 3000, 4⟩] := by
  have h := getRateLimitHistoryData_history_shape
    (mkRateLimitRouteHandler [("none", ⟨some 5, some 20, some 100⟩)] [])
    "u" "hour" PeriodType.HOURLY rfl (Except.ok ⟨["none"], none⟩)
    [⟨"u", PeriodType.HOURLY, 1000, 2000, 3⟩,
     ⟨"v", PeriodType.HOURLY, 5000, 6000, 9⟩,
     ⟨"u", PeriodType.HOURLY, 3000, 4000, 1⟩,
     ⟨"u", PeriodType.HOURLY, 2000, 3000, 4⟩] 2 (by decide)
  exact ⟨h.1, h.2.1, by decide⟩

/-- Claim C8: each returned history entry carries exactly the stored record's
period boundaries (serialized) and its request count unchanged, plus the
user's effective limit for the requested period type, and the reported
`totalEntries` equals the number of entries in the response. -/
theorem getRateLimitHistoryData_entries_exact (h : RateLimitRouteHandler)
    (userId periodType : String) (ipt : PeriodType)
    (hpt : convertPeriodType periodType = Except.ok ipt)
    (rcResult : Except String SubscriptionInfo) (rows : List CounterRow)
    (limit : Nat) (d : RateLimitHistoryData)
    (hres : getRateLimitHistoryData h userId periodType rcResult (Except.ok rows) limit =
      Except.ok d) :
    d.totalEntries = d.entries.length ∧
    d.entries = (getHistory userId ipt (effectiveAnchor rcResult) rows limit).map
      (toHistoryEntry (getLimitForPeriod
        (resolve (effectiveEntitlements rcResult) h.rateLimitsConfig) periodType)) ∧
    ∀ (pl : ApiLimit) (r : CounterRow),
      (toHistoryEntry pl r).periodStart = isoString r.period_start ∧
      (toHistoryEntry pl r).periodEnd = isoString r.period_end ∧
      (toHistoryEntry pl r).requestCount = r.request_count ∧
      (toHistoryEntry pl r).limit = pl := by
  unfold getRateLimitHistoryData at hres
  rw [hpt] at hres
  have hd := Except.ok.inj hres
  refine ⟨?_, ?_, fun pl r => ⟨rfl, rfl, rfl, rfl⟩⟩
  · rw [← hd]
  · rw [← hd]

/-- Witness for C8 at a concrete stored row. -/
theorem getRateLimitHistoryData_entries_exact_witness :
    (⟨"hour",
      [⟨isoString 3000, isoString 4000, 1,
        ApiLimit.num 5⟩],
      1⟩ : RateLimitHistoryData).totalEntries =
      (⟨"hour",
        [⟨isoString 3000, isoString 4000, 1, ApiLimit.num 5⟩],
        1⟩ : RateLimitHistoryData).entries.length ∧
    (toHistoryEntry (ApiLimit.num 5) ⟨"u", PeriodType.HOURLY, 3000, 4000, 1⟩).periodStart =
      isoString 3000 := by
  have h := getRateLimitHistoryData_entries_exact
    (mkRateLimitRouteHandler [("none", ⟨some 5, some 20, some 100⟩)] [])
    "u" "hour" PeriodType.HOURLY rfl (Except.ok ⟨["none"], none⟩)
    [⟨"u", PeriodType.HOURLY, 3000, 4000, 1⟩] 100
    ⟨"hour", [⟨isoString 3000, isoString 4000, 1, ApiLimit.num 5⟩], 1⟩ rfl
  exact ⟨h.1, (h.2.2 (ApiLimit.num 5) ⟨"u", PeriodType.HOURLY, 3000, 4000, 1⟩).1⟩

/-- Witness for C5 at the concrete triple with an unbounded hourly limit, a
finite daily limit 7 and a finite monthly limit 0. -/
theorem convertLimits_keeps_unbounded_distinct_witness :
    (convertLimits ⟨none, some 7, some 0⟩).hourly = toApiLimit none ∧
    getLimitForPeriod ⟨none, some 7, some 0⟩ "hour" = toApiLimit none ∧
    toApiLimit none = ApiLimit.null ∧
    toApiLimit (some 0) = ApiLimit.num 0 ∧
    ApiLimit.null ≠ ApiLimit.num 0 := by
  have h := convertLimits_keeps_unbounded_distinct ⟨none, some 7, some 0⟩
  exact ⟨h.1, h.2.2.2.1, h.2.2.2.2.2.2.1, h.2.2.2.2.2.2.2.1 0, h.2.2.2.2.2.2.2.2 0⟩
